import Mathlib

/-!
Verification of the reality-capture job orchestration script
(`src/python/jobs/context_capture_job.py`).

The script drives a remote Reality Modeling job: it uploads local inputs
to the cloud (deduplicating through a persisted `ReferenceTable`), submits
a job, polls it until a terminal state (`tracking_job_progress`) and
downloads the declared outputs (`download_outputs`).

The embedding below translates the script's control flow into pure Lean
functions.  External collaborators (the data-transfer service, the status
query, the download call) are passed in as explicit values/functions: a
status stream is a list of query results, an upload is the result it
would have produced, a download is a function from cloud id to result.
Console output relevant to the claims (error reports, progress lines) is
recorded as explicit event values, and `exit(n)` is recorded as an exit
code.
-/

namespace RealityCapture

/-- Result type mirroring the library's `ReturnValue`: a value on success or
an error string (`is_error`).  Modelled from the spec: the `reality_apis`
`ReturnValue` class is not under `src/`; the spec describes all collaborator
operations as `Result<V, Error>`. -/
inductive RV (α : Type) where
  | ok (value : α)
  | err (error : String)
deriving DecidableEq, Repr

/-- Job states compared against in `tracking_job_progress` (lines 157-174):
`SUCCESS`, `Completed`, `Over`, `ACTIVE`, `Running`, `CANCELLED`, `FAILED`.
Modelled from the spec: the `reality_apis.utils.JobState` enumeration is not
under `src/`; `Unknown` stands for any raw vocabulary value outside the seven
the script handles (the spec, section 9, notes the service vocabulary has
drifted across API versions, so values outside the handled set exist). -/
inductive JobState where
  | SUCCESS
  | Completed
  | Over
  | ACTIVE
  | Running
  | CANCELLED
  | FAILED
  | Unknown
deriving DecidableEq, Repr

/-- A progress snapshot as consumed by the loop: `state`, `progress` (percent)
and `step` (lines 158-173 of the script). -/
structure JobProgress where
  state : JobState
  progress : Nat
  step : String
deriving DecidableEq, Repr

/-- One response of `service_cc.get_job_progress` (line 152): either a
snapshot or an error (`progress_ret.is_error()`, line 153). -/
inductive QueryResult where
  | ok (value : JobProgress)
  | error (e : String)
deriving DecidableEq, Repr

/-- Console events the polling loop emits, one constructor per branch of the
`if/elif` chain in `tracking_job_progress`:
* `progress` — the `Progress: ...%, step: ...` line of the ACTIVE/Running
  branch (line 167);
* `queryError` — the error report of the query-failure branch (line 154);
* `jobCancelled` — the `Job cancelled` message (line 169);
* `jobFailed` — the `Job Failed` message together with the final
  `Progress: ...%, step: ...` diagnostic line of the FAILED branch
  (lines 172-173);
* `jobDone` — the `Job done` message after the loop (line 176). -/
inductive Event where
  | progress (pct : Nat) (step : String)
  | queryError (e : String)
  | jobCancelled
  | jobFailed (pct : Nat) (step : String)
  | jobDone
deriving DecidableEq, Repr

/-- The way `tracking_job_progress` ends:
`done` — the loop `break`s on a success state and the function returns;
`cancelled` — `exit(0)` on CANCELLED; `failed` — `exit(1)` on FAILED,
carrying the snapshot's percent and step; `queryFailed` — `exit(1)` on a
query error; `pending` — the modelled response stream ran out while the
loop would have kept polling (a model artifact marking non-termination). -/
inductive TrackOutcome where
  | done
  | cancelled
  | failed (pct : Nat) (step : String)
  | queryFailed (e : String)
  | pending
deriving DecidableEq, Repr

/-- The process exit code each outcome corresponds to in the script:
`exit(0)` for cancellation, `exit(1)` for failure, none for a normal
return. -/
def TrackOutcome.exit_code : TrackOutcome → Option Nat
  | .done => none
  | .cancelled => some 0
  | .failed _ _ => some 1
  | .queryFailed _ => some 1
  | .pending => none

/-- Observable trace of one run of the polling loop: how many status
queries were issued, the console events in order, how many times
`time.sleep(60)` ran, and the outcome. -/
structure TrackResult where
  queries : Nat
  events : List Event
  sleeps : Nat
  outcome : TrackOutcome
deriving DecidableEq, Repr

/-- Embedding of `tracking_job_progress` (lines 150-176).  The `while True`
loop issues one status query per cycle; we model the service's successive
responses as the input list and recurse down it.  Branches follow the
source exactly: query error reports and exits (lines 153-155); the three
success states `break` (lines 157-162); the two running states print a
progress line (lines 163-167); CANCELLED prints and exits with 0
(lines 168-170); FAILED prints the diagnostics and exits with 1
(lines 171-174); any other state falls through the `elif` chain; every
non-exiting, non-breaking cycle ends in `time.sleep(60)` (line 175). -/
def tracking_job_progress : List QueryResult → TrackResult
  | [] => ⟨0, [], 0, .pending⟩
  | .error e :: _ => ⟨1, [.queryError e], 0, .queryFailed e⟩
  | .ok p :: rest =>
    if p.state = .SUCCESS ∨ p.state = .Completed ∨ p.state = .Over then
      ⟨1, [.jobDone], 0, .done⟩
    else if p.state = .ACTIVE ∨ p.state = .Running then
      let r := tracking_job_progress rest
      ⟨r.queries + 1, .progress p.progress p.step :: r.events, r.sleeps + 1, r.outcome⟩
    else if p.state = .CANCELLED then
      ⟨1, [.jobCancelled], 0, .cancelled⟩
    else if p.state = .FAILED then
      ⟨1, [.jobFailed p.progress p.step], 0, .failed p.progress p.step⟩
    else
      let r := tracking_job_progress rest
      ⟨r.queries + 1, r.events, r.sleeps + 1, r.outcome⟩

/-- A state the loop treats as "still running": the ACTIVE/Running branch. -/
def is_running_state (s : JobState) : Bool :=
  s = JobState.ACTIVE ∨ s = JobState.Running

/-- A state on which the loop terminates. -/
def is_terminal_state : JobState → Bool
  | .SUCCESS | .Completed | .Over | .CANCELLED | .FAILED => true
  | _ => false

/-- A state the `if/elif` chain handles at all. -/
def is_handled_state (s : JobState) : Bool :=
  is_running_state s || is_terminal_state s

/-- The outcome the loop produces on first seeing snapshot `p`, when `p` is
terminal; `none` for non-terminal states. -/
def terminal_outcome (p : JobProgress) : Option TrackOutcome :=
  match p.state with
  | .SUCCESS | .Completed | .Over => some .done
  | .CANCELLED => some .cancelled
  | .FAILED => some (.failed p.progress p.step)
  | _ => none

/-- The progress observations among a list of events: the `(percent, step)`
pairs printed by the ACTIVE/Running branch. -/
def progress_events (es : List Event) : List (Nat × String) :=
  es.filterMap fun e =>
    match e with
    | .progress p s => some (p, s)
    | _ => none

/-! ## The reference table and `upload_data` -/

/-- The persisted map from local path to cloud id used by `upload_data`.
Modelled from the spec: `reality_apis.DataTransfer.references.ReferenceTable`
is not under `src/`; the spec (section 3) describes it as a mapping from
local-path strings to cloud-id strings with unique keys. -/
structure ReferenceTable where
  entries : List (String × String)
deriving DecidableEq, Repr

/-- Modelled from the spec: `hasLocalPath(localPath) -> bool` is an existence
check with no side effect (spec section 4.1). -/
def ReferenceTable.has_local_path (t : ReferenceTable) (p : String) : Bool :=
  t.entries.any fun kv => kv.1 == p

/-- Modelled from the spec: `addReference(localPath, cloudId)` fails with a
duplicate-key error if the local path is already present, otherwise inserts
the pair (spec section 4.1). -/
def ReferenceTable.add_reference (t : ReferenceTable) (p c : String) :
    RV ReferenceTable :=
  if t.has_local_path p then .err "DuplicateKeyError"
  else .ok ⟨t.entries ++ [(p, c)]⟩

/-- Modelled from the spec: `getCloudIdFromLocalPath(localPath) ->
Result<CloudId, NotFoundError>` (spec section 4.1). -/
def ReferenceTable.get_cloud_id_from_local_path (t : ReferenceTable)
    (p : String) : RV String :=
  match t.entries.find? (fun kv => kv.1 == p) with
  | some kv => .ok kv.2
  | none => .err "NotFoundError"

/-- Error reports `upload_data` prints, one constructor per `print` of an
error in the function: the upload-failure report (lines 78 and 93), the
add-reference report (line 82, and line 97 where the script prints the
orientation path instead of the error), and the save-failure report
(line 103). -/
inductive Report where
  | uploadError (e : String)
  | addRefError (msg : String)
  | saveError (e : String)
deriving DecidableEq, Repr

/-- Observable result of `upload_data`: whether each of the two uploads was
invoked, the error reports printed, the reference table at the end (also on
exit, the in-memory table at that point), and the exit code (`none` when the
function returns normally). -/
structure UDResult where
  imgUploadInvoked : Bool
  oriUploadInvoked : Bool
  reports : List Report
  table : ReferenceTable
  exitCode : Option Nat
deriving DecidableEq, Repr

/-- Tail of `upload_data` (lines 100-106): the second `references.save` call,
whose result is checked; an error is reported and exits with 1, otherwise the
table is returned. -/
def upload_finish (refs : ReferenceTable) (imgInv oriInv : Bool)
    (save2 : RV Unit) : UDResult :=
  match save2 with
  | .err e => ⟨imgInv, oriInv, [.saveError e], refs, some 1⟩
  | .ok _ => ⟨imgInv, oriInv, [], refs, none⟩

/-- The ccorientations block of `upload_data` (lines 86-98) followed by the
final save: if the table has no entry for `ori`, the upload collaborator is
invoked; an upload error is reported and exits with 1 (lines 92-94); on
success `add_reference` records the new id, whose failure the script reports
by printing the path `ori` (lines 95-98). -/
def upload_after_img (refs : ReferenceTable) (imgInv : Bool) (ori : String)
    (uploadOri : RV String) (save2 : RV Unit) : UDResult :=
  if refs.has_local_path ori then
    upload_finish refs imgInv false save2
  else
    match uploadOri with
    | .err e => ⟨imgInv, true, [.uploadError e], refs, some 1⟩
    | .ok cid =>
      match refs.add_reference ori cid with
      | .err _ => ⟨imgInv, true, [.addRefError ori], refs, some 1⟩
      | .ok refs2 => upload_finish refs2 imgInv true save2

/-- Embedding of `upload_data` (lines 53-106) from the table state after the
optional load (lines 57-64).  `uploadImg`/`uploadOri` are the results the two
upload collaborator calls would return if invoked; `save1` is the result of
the intermediate `references.save(references_path)` on line 85, which the
script discards without looking at it (so the parameter is unused here, as in
the source); `save2` is the result of the checked save on line 101.  The
ccimageCollection block (lines 66-83) mirrors `upload_after_img`: no upload
when the path is already referenced, otherwise upload, report-and-exit on
error, then `add_reference`. -/
def upload_data (refs0 : ReferenceTable) (img ori : String)
    (uploadImg uploadOri : RV String) (_save1 save2 : RV Unit) : UDResult :=
  if refs0.has_local_path img then
    upload_after_img refs0 false ori uploadOri save2
  else
    match uploadImg with
    | .err e => ⟨true, false, [.uploadError e], refs0, some 1⟩
    | .ok cid =>
      match refs0.add_reference img cid with
      | .err e => ⟨true, false, [.addRefError e], refs0, some 1⟩
      | .ok refs1 => upload_after_img refs1 true ori uploadOri save2

/-- `ReturnValue.value` as the script uses it on line 124-125 (without an
error check): the stored value, or the type's empty default on an error.
Modelled from the spec: `ReturnValue` is not under `src/`. -/
def rv_value : RV String → String
  | .ok v => v
  | .err _ => ""

/-- Embedding of `create_job_settings` (lines 120-130) restricted to its
input wiring: `settings.inputs` is the two-element list of the cloud ids
looked up from the reference table for the image collection and the
orientations (lines 123-126). -/
def create_job_settings (refs : ReferenceTable) (img ori : String) :
    List String :=
  [rv_value (refs.get_cloud_id_from_local_path img),
   rv_value (refs.get_cloud_id_from_local_path ori)]

/-! ## `download_outputs` -/

/-- Observable result of the download loop of `download_outputs`: the cloud
ids for which a download was attempted (in order), the output kinds whose
download failed and was reported (line 195), and the output kinds for which
the `Downloaded ... output` line was printed (line 196, printed for every
attempt, failed or not). -/
structure DLResult where
  attempts : List String
  reportedFailures : List String
  downloadedMsgs : List String
deriving DecidableEq, Repr

/-- The `for output_type, output_id in output_types.items()` loop of
`download_outputs` (lines 191-196): entries with an absent id are skipped
(line 192); otherwise `download_reality_data` is called (line 193); a
failure is reported (line 194-195) and the loop continues with the next
entry; the `Downloaded` line (line 196) is printed unconditionally. -/
def download_loop (download : String → RV Unit) :
    List (String × Option String) → DLResult
  | [] => ⟨[], [], []⟩
  | kv :: rest =>
    let r := download_loop download rest
    match kv.2 with
    | none => r
    | some oid =>
      match download oid with
      | .err _ => ⟨oid :: r.attempts, kv.1 :: r.reportedFailures,
                   kv.1 :: r.downloadedMsgs⟩
      | .ok _ => ⟨oid :: r.attempts, r.reportedFailures,
                  kv.1 :: r.downloadedMsgs⟩

/-- Embedding of `download_outputs` (lines 179-197).  `props` is the result
of `get_job_properties` (line 182): an error is reported and exits with 1
(lines 183-185); otherwise the declared outputs — a finite mapping from
output kind to optional id, the script's `final_settings.outputs.__dict__` —
are filtered to those whose value is present (line 189) and the download
loop runs over them.  Returns `none` on the exit path. -/
def download_outputs (props : RV (List (String × Option String)))
    (download : String → RV Unit) : Option DLResult :=
  match props with
  | .err _ => none
  | .ok outs =>
    some (download_loop download (outs.filter fun kv => kv.2.isSome))

/-! ## Poller lemmas -/

/-- A snapshot in a running state makes the loop print one progress line,
sleep once and poll again. -/
theorem tracking_running_step (p : JobProgress) (rest : List QueryResult)
    (h : is_running_state p.state = true) :
    tracking_job_progress (.ok p :: rest) =
      ⟨(tracking_job_progress rest).queries + 1,
       .progress p.progress p.step :: (tracking_job_progress rest).events,
       (tracking_job_progress rest).sleeps + 1,
       (tracking_job_progress rest).outcome⟩ := by
  have h' : p.state = .ACTIVE ∨ p.state = .Running := by
    simpa [is_running_state] using h
  rcases h' with h' | h' <;> simp [tracking_job_progress, h']

/-- A terminal snapshot makes the loop stop at once: one query, no progress
observation, no sleep, and the outcome the state class dictates. -/
theorem tracking_terminal_step (t : JobProgress) (o : TrackOutcome)
    (rest : List QueryResult) (ht : terminal_outcome t = some o) :
    (tracking_job_progress (.ok t :: rest)).queries = 1 ∧
    progress_events (tracking_job_progress (.ok t :: rest)).events = [] ∧
    (tracking_job_progress (.ok t :: rest)).sleeps = 0 ∧
    (tracking_job_progress (.ok t :: rest)).outcome = o := by
  cases hts : t.state <;> simp [terminal_outcome, hts] at ht <;>
    simp [tracking_job_progress, hts, progress_events, ← ht]

/-- A snapshot in a state the `if/elif` chain does not handle is skipped:
no event, one sleep, and polling continues on the rest of the stream. -/
theorem tracking_unhandled_step (p : JobProgress) (rest : List QueryResult)
    (h : is_handled_state p.state = false) :
    tracking_job_progress (.ok p :: rest) =
      ⟨(tracking_job_progress rest).queries + 1,
       (tracking_job_progress rest).events,
       (tracking_job_progress rest).sleeps + 1,
       (tracking_job_progress rest).outcome⟩ := by
  cases hps : p.state <;>
    simp_all [tracking_job_progress, is_handled_state, is_running_state,
      is_terminal_state]

/-- A stream made only of unhandled snapshots is polled to exhaustion:
every snapshot costs one query and one sleep, nothing is printed, and no
terminal outcome is ever reached. -/
theorem tracking_all_unhandled (ps : List JobProgress)
    (h : ∀ q ∈ ps, is_handled_state q.state = false) :
    tracking_job_progress (ps.map QueryResult.ok) =
      ⟨ps.length, [], ps.length, .pending⟩ := by
  induction ps with
  | nil => rfl
  | cons p ps ih =>
    rw [List.map_cons, tracking_unhandled_step p _ (h p (by simp)),
        ih (fun q hq => h q (by simp [hq]))]
    simp

/-! ## Claim theorems: the polling loop -/

/-- C2: for a status stream of `n` running snapshots followed by one
terminal snapshot (and anything after it), `tracking_job_progress` issues
exactly `n + 1` status queries, emits exactly the `n` progress observations
of the running snapshots, sleeps exactly `n` times, returns the outcome the
terminal state dictates, and never issues another status query afterward
(the count is independent of the remainder of the stream). -/
theorem poller_stops_on_first_terminal (ps : List JobProgress)
    (t : JobProgress) (o : TrackOutcome) (rest : List QueryResult)
    (hps : ∀ p ∈ ps, is_running_state p.state = true)
    (ht : terminal_outcome t = some o) :
    (tracking_job_progress
        (ps.map QueryResult.ok ++ QueryResult.ok t :: rest)).queries =
      ps.length + 1 ∧
    progress_events (tracking_job_progress
        (ps.map QueryResult.ok ++ QueryResult.ok t :: rest)).events =
      ps.map (fun p => (p.progress, p.step)) ∧
    (tracking_job_progress
        (ps.map QueryResult.ok ++ QueryResult.ok t :: rest)).sleeps =
      ps.length ∧
    (tracking_job_progress
        (ps.map QueryResult.ok ++ QueryResult.ok t :: rest)).outcome = o := by
  induction ps with
  | nil => simpa using tracking_terminal_step t o rest ht
  | cons p ps ih =>
    obtain ⟨ih1, ih2, ih3, ih4⟩ := ih (fun q hq => hps q (by simp [hq]))
    rw [List.map_cons, List.cons_append,
        tracking_running_step p _ (hps p (by simp))]
    refine ⟨by simpa using ih1, ?_, by simpa using ih3, by simpa using ih4⟩
    simpa [progress_events] using ih2

/-- Witness for C2 at the spec's stub sequence `[RUNNING, RUNNING, SUCCESS]`:
3 queries, the 2 progress observations, 2 sleeps, SUCCESS outcome. -/
theorem poller_stops_on_first_terminal_witness :
    (∀ p ∈ [(⟨.ACTIVE, 10, "a"⟩ : JobProgress), ⟨.Running, 50, "b"⟩],
      is_running_state p.state = true) ∧
    terminal_outcome ⟨.SUCCESS, 100, "c"⟩ = some .done ∧
    ((tracking_job_progress
        ([(⟨.ACTIVE, 10, "a"⟩ : JobProgress), ⟨.Running, 50, "b"⟩].map
           QueryResult.ok ++
         QueryResult.ok ⟨.SUCCESS, 100, "c"⟩ :: [])).queries = 2 + 1 ∧
     progress_events (tracking_job_progress
        ([(⟨.ACTIVE, 10, "a"⟩ : JobProgress), ⟨.Running, 50, "b"⟩].map
           QueryResult.ok ++
         QueryResult.ok ⟨.SUCCESS, 100, "c"⟩ :: [])).events =
       [(⟨.ACTIVE, 10, "a"⟩ : JobProgress), ⟨.Running, 50, "b"⟩].map
         (fun p => (p.progress, p.step)) ∧
     (tracking_job_progress
        ([(⟨.ACTIVE, 10, "a"⟩ : JobProgress), ⟨.Running, 50, "b"⟩].map
           QueryResult.ok ++
         QueryResult.ok ⟨.SUCCESS, 100, "c"⟩ :: [])).sleeps = 2 ∧
     (tracking_job_progress
        ([(⟨.ACTIVE, 10, "a"⟩ : JobProgress), ⟨.Running, 50, "b"⟩].map
           QueryResult.ok ++
         QueryResult.ok ⟨.SUCCESS, 100, "c"⟩ :: [])).outcome = .done) :=
  ⟨by decide, by decide,
   poller_stops_on_first_terminal
     [⟨.ACTIVE, 10, "a"⟩, ⟨.Running, 50, "b"⟩] ⟨.SUCCESS, 100, "c"⟩
     .done [] (by decide) (by decide)⟩

/-- C3: a FAILED snapshot makes the loop print the failure diagnostics (the
final progress observation with the snapshot's percent and step), exit with
code 1 carrying that percent and step, and never query again (the result is
independent of the rest of the stream). -/
theorem poller_failed_surfaces_diagnostics (p : JobProgress)
    (rest : List QueryResult) (h : p.state = .FAILED) :
    tracking_job_progress (.ok p :: rest) =
      ⟨1, [.jobFailed p.progress p.step], 0, .failed p.progress p.step⟩ ∧
    (TrackOutcome.failed p.progress p.step).exit_code = some 1 := by
  refine ⟨?_, rfl⟩
  simp [tracking_job_progress, h]

/-- Witness for C3 at the spec's `[RUNNING, FAILED]`-style failing snapshot. -/
theorem poller_failed_surfaces_diagnostics_witness :
    (⟨.FAILED, 37, "step3"⟩ : JobProgress).state = .FAILED ∧
    (tracking_job_progress
        [.ok ⟨.FAILED, 37, "step3"⟩, .ok ⟨.Running, 0, "x"⟩] =
      ⟨1, [.jobFailed 37 "step3"], 0, .failed 37 "step3"⟩ ∧
     (TrackOutcome.failed 37 "step3").exit_code = some 1) :=
  ⟨rfl, poller_failed_surfaces_diagnostics ⟨.FAILED, 37, "step3"⟩
     [.ok ⟨.Running, 0, "x"⟩] rfl⟩

/-- C4: a CANCELLED snapshot makes the loop print `Job cancelled` and stop
with the cancelled outcome — exit code 0, not the error exit — without any
further query; the cancelled outcome is distinct from every failure
outcome. -/
theorem poller_cancelled_not_an_error (p : JobProgress)
    (rest : List QueryResult) (h : p.state = .CANCELLED) :
    tracking_job_progress (.ok p :: rest) =
      ⟨1, [.jobCancelled], 0, .cancelled⟩ ∧
    TrackOutcome.cancelled.exit_code = some 0 ∧
    ∀ pct step, TrackOutcome.cancelled ≠ TrackOutcome.failed pct step := by
  exact ⟨by simp [tracking_job_progress, h], rfl, fun _ _ h' => nomatch h'⟩

/-- Witness for C4 at the spec's `[CANCELLED]` sequence. -/
theorem poller_cancelled_not_an_error_witness :
    (⟨.CANCELLED, 12, "s"⟩ : JobProgress).state = .CANCELLED ∧
    (tracking_job_progress [.ok ⟨.CANCELLED, 12, "s"⟩] =
       ⟨1, [.jobCancelled], 0, .cancelled⟩ ∧
     TrackOutcome.cancelled.exit_code = some 0 ∧
     ∀ pct step, TrackOutcome.cancelled ≠ TrackOutcome.failed pct step) :=
  ⟨rfl, poller_cancelled_not_an_error ⟨.CANCELLED, 12, "s"⟩ [] rfl⟩

/-- C5: a query error terminates tracking at once: exactly one query was
issued, the error is reported, there is no internal retry, no further
query and no sleep through another poll interval — whatever responses
would have followed. -/
theorem poller_query_error_fails_fast (e : String) (rest : List QueryResult) :
    tracking_job_progress (.error e :: rest) =
      ⟨1, [.queryError e], 0, .queryFailed e⟩ ∧
    (TrackOutcome.queryFailed e).exit_code = some 1 :=
  ⟨rfl, rfl⟩

/-- C6: state normalization — SUCCESS, Completed and Over all take the
success branch and produce identical results; ACTIVE and Running take the
running branch and produce identical results; CANCELLED and FAILED are
handled and produce distinct terminal outcomes, also distinct from the
success outcome. -/
theorem poller_state_normalization (pct : Nat) (step : String)
    (rest : List QueryResult) :
    (tracking_job_progress (.ok ⟨.SUCCESS, pct, step⟩ :: rest) =
       tracking_job_progress (.ok ⟨.Completed, pct, step⟩ :: rest) ∧
     tracking_job_progress (.ok ⟨.SUCCESS, pct, step⟩ :: rest) =
       tracking_job_progress (.ok ⟨.Over, pct, step⟩ :: rest) ∧
     tracking_job_progress (.ok ⟨.SUCCESS, pct, step⟩ :: rest) =
       ⟨1, [.jobDone], 0, .done⟩) ∧
    tracking_job_progress (.ok ⟨.ACTIVE, pct, step⟩ :: rest) =
      tracking_job_progress (.ok ⟨.Running, pct, step⟩ :: rest) ∧
    (tracking_job_progress (.ok ⟨.CANCELLED, pct, step⟩ :: rest)).outcome =
      .cancelled ∧
    (tracking_job_progress (.ok ⟨.FAILED, pct, step⟩ :: rest)).outcome =
      .failed pct step ∧
    TrackOutcome.cancelled ≠ TrackOutcome.failed pct step ∧
    TrackOutcome.cancelled ≠ TrackOutcome.done ∧
    TrackOutcome.failed pct step ≠ TrackOutcome.done ∧
    ∀ s : JobState, is_handled_state s = true ↔
      (s = .SUCCESS ∨ s = .Completed ∨ s = .Over ∨ s = .ACTIVE ∨
       s = .Running ∨ s = .CANCELLED ∨ s = .FAILED) := by
  refine ⟨⟨by simp [tracking_job_progress], by simp [tracking_job_progress],
    by simp [tracking_job_progress]⟩, by simp [tracking_job_progress],
    by simp [tracking_job_progress], by simp [tracking_job_progress],
    by simp, by simp, by simp, ?_⟩
  intro s
  cases s <;> simp [is_handled_state, is_running_state, is_terminal_state]

/-- C10: a snapshot whose state is none of the seven handled values is
silently skipped — no event, no termination, one sleep, then the next
status query; consequently a stream made only of such snapshots is polled
to exhaustion without ever reaching a terminal outcome. -/
theorem poller_unhandled_state_polls_again (p : JobProgress)
    (rest : List QueryResult) (h : is_handled_state p.state = false) :
    tracking_job_progress (.ok p :: rest) =
      ⟨(tracking_job_progress rest).queries + 1,
       (tracking_job_progress rest).events,
       (tracking_job_progress rest).sleeps + 1,
       (tracking_job_progress rest).outcome⟩ ∧
    ∀ ps : List JobProgress, (∀ q ∈ ps, is_handled_state q.state = false) →
      tracking_job_progress (ps.map QueryResult.ok) =
        ⟨ps.length, [], ps.length, .pending⟩ :=
  ⟨tracking_unhandled_step p rest h, tracking_all_unhandled⟩

/-- Witness for C10 at a concrete unknown-state snapshot. -/
theorem poller_unhandled_state_polls_again_witness :
    is_handled_state (JobState.Unknown) = false ∧
    tracking_job_progress [.ok ⟨.Unknown, 5, "s"⟩] = ⟨1, [], 1, .pending⟩ :=
  ⟨by decide,
   ((poller_unhandled_state_polls_again ⟨.Unknown, 5, "s"⟩ []
       (by decide)).1).trans (by decide)⟩

/-! ## Reference-table lemmas -/

/-- A local path present in a table is still present after appending
entries. -/
theorem has_local_path_append_left (t : ReferenceTable)
    (suf : List (String × String)) (p : String)
    (h : t.has_local_path p = true) :
    (ReferenceTable.mk (t.entries ++ suf)).has_local_path p = true := by
  simp only [ReferenceTable.has_local_path, List.any_eq_true] at h ⊢
  obtain ⟨x, hx, hxp⟩ := h
  exact ⟨x, List.mem_append_left _ hx, hxp⟩

/-- Appending entries to a table does not change the cloud id looked up for
a path that was already present: lookups return the first matching record. -/
theorem get_cloud_id_append (t : ReferenceTable)
    (suf : List (String × String)) (p : String)
    (h : t.has_local_path p = true) :
    (ReferenceTable.mk
        (t.entries ++ suf)).get_cloud_id_from_local_path p =
      t.get_cloud_id_from_local_path p := by
  have hsome : (t.entries.find? (fun kv => kv.1 == p)).isSome := by
    rw [List.find?_isSome]
    simpa [ReferenceTable.has_local_path, List.any_eq_true] using h
  obtain ⟨kv, hkv⟩ := Option.isSome_iff_exists.mp hsome
  simp [ReferenceTable.get_cloud_id_from_local_path, List.find?_append, hkv]

/-- The image-upload flag travels unchanged through the orientation block. -/
theorem upload_after_img_invoked (refs : ReferenceTable) (b : Bool)
    (ori : String) (uO : RV String) (s2 : RV Unit) :
    (upload_after_img refs b ori uO s2).imgUploadInvoked = b := by
  unfold upload_after_img ReferenceTable.add_reference
  by_cases h : refs.has_local_path ori = true <;>
    cases uO <;> cases s2 <;> simp [h, upload_finish]

/-- The orientation block only ever appends entries to the table. -/
theorem upload_after_img_table (refs : ReferenceTable) (b : Bool)
    (ori : String) (uO : RV String) (s2 : RV Unit) :
    ∃ suf, (upload_after_img refs b ori uO s2).table.entries =
      refs.entries ++ suf := by
  unfold upload_after_img ReferenceTable.add_reference
  by_cases h : refs.has_local_path ori = true <;>
    cases uO <;> cases s2 <;> simp [h, upload_finish]

/-- When the orientation path is already referenced, the orientation block
is the dedup fast path: it goes straight to the final save. -/
theorem upload_after_img_has (refs : ReferenceTable) (b : Bool)
    (ori : String) (uO : RV String) (s2 : RV Unit)
    (h : refs.has_local_path ori = true) :
    upload_after_img refs b ori uO s2 = upload_finish refs b false s2 := by
  simp [upload_after_img, h]

/-- The final save leaves the table and both upload flags unchanged. -/
theorem upload_finish_fields (refs : ReferenceTable) (b c : Bool)
    (s2 : RV Unit) :
    (upload_finish refs b c s2).table = refs ∧
    (upload_finish refs b c s2).imgUploadInvoked = b ∧
    (upload_finish refs b c s2).oriUploadInvoked = c := by
  cases s2 <;> exact ⟨rfl, rfl, rfl⟩

/-! ## Claim theorems: the upload flow -/

/-- C1: a resource whose path is already in the reference table is never
re-uploaded by `upload_data` (the upload collaborator is not invoked for
it), its stored cloud id is unchanged by the whole upload flow, and the
cloud id `create_job_settings` subsequently wires into the job inputs is
exactly the previously stored one.  Stated for both the image-collection
and the orientations resource. -/
theorem upload_dedup_fast_path (refs0 : ReferenceTable) (img ori : String)
    (uI uO : RV String) (s1 s2 : RV Unit) :
    (refs0.has_local_path img = true →
      (upload_data refs0 img ori uI uO s1 s2).imgUploadInvoked = false ∧
      (upload_data refs0 img ori uI uO
          s1 s2).table.get_cloud_id_from_local_path img =
        refs0.get_cloud_id_from_local_path img ∧
      ∀ c, refs0.get_cloud_id_from_local_path img = .ok c →
        (create_job_settings (upload_data refs0 img ori uI uO s1 s2).table
            img ori).head? = some c) ∧
    (refs0.has_local_path ori = true →
      (upload_data refs0 img ori uI uO s1 s2).oriUploadInvoked = false ∧
      (upload_data refs0 img ori uI uO
          s1 s2).table.get_cloud_id_from_local_path ori =
        refs0.get_cloud_id_from_local_path ori) := by
  constructor
  · intro h
    have hEq : upload_data refs0 img ori uI uO s1 s2 =
        upload_after_img refs0 false ori uO s2 := by
      simp [upload_data, h]
    obtain ⟨suf, hsuf⟩ := upload_after_img_table refs0 false ori uO s2
    have hget : (upload_after_img refs0 false ori uO
        s2).table.get_cloud_id_from_local_path img =
        refs0.get_cloud_id_from_local_path img := by
      calc (upload_after_img refs0 false ori uO
              s2).table.get_cloud_id_from_local_path img
          = (ReferenceTable.mk (refs0.entries ++
              suf)).get_cloud_id_from_local_path img := by rw [← hsuf]
        _ = refs0.get_cloud_id_from_local_path img :=
            get_cloud_id_append refs0 suf img h
    refine ⟨hEq ▸ upload_after_img_invoked refs0 false ori uO s2,
      hEq ▸ hget, ?_⟩
    intro c hc
    rw [hEq]
    simp [create_job_settings, hget, hc, rv_value]
  · intro h
    by_cases hi : refs0.has_local_path img = true
    · have hEq : upload_data refs0 img ori uI uO s1 s2 =
          upload_finish refs0 false false s2 := by
        rw [show upload_data refs0 img ori uI uO s1 s2 =
            upload_after_img refs0 false ori uO s2 by simp [upload_data, hi],
          upload_after_img_has refs0 false ori uO s2 h]
      rw [hEq, (upload_finish_fields refs0 false false s2).1]
      exact ⟨(upload_finish_fields refs0 false false s2).2.2, rfl⟩
    · cases uI with
      | err e =>
        simp [upload_data, hi]
      | ok cid =>
        have hEq : upload_data refs0 img ori (.ok cid) uO s1 s2 =
            upload_after_img (ReferenceTable.mk
              (refs0.entries ++ [(img, cid)])) true ori uO s2 := by
          simp [upload_data, hi, ReferenceTable.add_reference]
        have h1 : (ReferenceTable.mk
            (refs0.entries ++ [(img, cid)])).has_local_path ori = true :=
          has_local_path_append_left refs0 [(img, cid)] ori h
        rw [hEq, upload_after_img_has _ true ori uO s2 h1,
          (upload_finish_fields _ true false s2).1]
        exact ⟨(upload_finish_fields _ true false s2).2.2,
          get_cloud_id_append refs0 [(img, cid)] ori h⟩

/-- Witness for C1: both paths already referenced, both uploads skipped,
and the job settings carry the stored cloud id. -/
theorem upload_dedup_fast_path_witness :
    (⟨[("img", "c1"), ("ori", "c2")]⟩ :
        ReferenceTable).has_local_path "img" = true ∧
    ((upload_data ⟨[("img", "c1"), ("ori", "c2")]⟩ "img" "ori" (.ok "x")
        (.ok "y") (.ok ()) (.ok ())).imgUploadInvoked = false ∧
     (upload_data ⟨[("img", "c1"), ("ori", "c2")]⟩ "img" "ori" (.ok "x")
        (.ok "y") (.ok ()) (.ok ())).table.get_cloud_id_from_local_path
          "img" =
       (⟨[("img", "c1"), ("ori", "c2")]⟩ :
          ReferenceTable).get_cloud_id_from_local_path "img" ∧
     ∀ c, (⟨[("img", "c1"), ("ori", "c2")]⟩ :
          ReferenceTable).get_cloud_id_from_local_path "img" = .ok c →
       (create_job_settings (upload_data ⟨[("img", "c1"), ("ori", "c2")]⟩
           "img" "ori" (.ok "x") (.ok "y") (.ok ()) (.ok ())).table
           "img" "ori").head? = some c) :=
  ⟨by decide,
   (upload_dedup_fast_path ⟨[("img", "c1"), ("ori", "c2")]⟩ "img" "ori"
      (.ok "x") (.ok "y") (.ok ()) (.ok ())).1 (by decide)⟩

/-- C7: when a resource is not yet referenced and its upload fails, the
script reports the error and exits with code 1 having performed no table
mutation: the table is exactly what it was before the attempt.  Stated for
the image-collection block (from the initial table) and for the
orientations block (from the table it is entered with). -/
theorem upload_failure_no_table_mutation (refs : ReferenceTable)
    (img ori e : String) (uO : RV String) (s1 s2 : RV Unit) (b : Bool) :
    (refs.has_local_path img = false →
      (upload_data refs img ori (.err e) uO s1 s2).table = refs ∧
      (upload_data refs img ori (.err e) uO s1 s2).exitCode = some 1 ∧
      (upload_data refs img ori (.err e) uO s1 s2).reports =
        [.uploadError e]) ∧
    (refs.has_local_path ori = false →
      (upload_after_img refs b ori (.err e) s2).table = refs ∧
      (upload_after_img refs b ori (.err e) s2).exitCode = some 1 ∧
      (upload_after_img refs b ori (.err e) s2).reports =
        [.uploadError e]) := by
  constructor
  · intro h
    simp [upload_data, h]
  · intro h
    simp [upload_after_img, h]

/-- Witness for C7: an empty table and a failing upload leave the table
empty. -/
theorem upload_failure_no_table_mutation_witness :
    (⟨[]⟩ : ReferenceTable).has_local_path "img" = false ∧
    ((upload_data ⟨[]⟩ "img" "ori" (.err "boom") (.ok "y") (.ok ())
        (.ok ())).table = ⟨[]⟩ ∧
     (upload_data ⟨[]⟩ "img" "ori" (.err "boom") (.ok "y") (.ok ())
        (.ok ())).exitCode = some 1 ∧
     (upload_data ⟨[]⟩ "img" "ori" (.err "boom") (.ok "y") (.ok ())
        (.ok ())).reports = [.uploadError "boom"]) :=
  ⟨by decide,
   (upload_failure_no_table_mutation ⟨[]⟩ "img" "ori" "boom" (.ok "y")
      (.ok ()) (.ok ()) false).1 (by decide)⟩

/-- C9 is falsified by the code: the result of the intermediate
`references.save` on line 85 is discarded, so `upload_data` behaves
identically whatever that save returns; in particular, when it returns an
IO error and everything else succeeds, no error is reported and the run
continues as if the save had succeeded. -/
theorem upload_save_error_discarded :
    (∀ (refs : ReferenceTable) (img ori : String) (uI uO : RV String)
        (s1 s1' s2 : RV Unit),
      upload_data refs img ori uI uO s1 s2 =
        upload_data refs img ori uI uO s1' s2) ∧
    (upload_data ⟨[("imgpath", "cid1"), ("oripath", "cid2")]⟩ "imgpath"
        "oripath" (.ok "u1") (.ok "u2") (.err "IOError") (.ok ())).reports =
      [] ∧
    (upload_data ⟨[("imgpath", "cid1"), ("oripath", "cid2")]⟩ "imgpath"
        "oripath" (.ok "u1") (.ok "u2") (.err "IOError")
        (.ok ())).exitCode = none :=
  ⟨fun _ _ _ _ _ _ _ _ => rfl, by decide, by decide⟩

/-! ## Claim theorems: output collection -/

/-- C8: `download_outputs` attempts a download for exactly the declared
outputs whose identifier is present, each exactly once and in declaration
order — the attempted ids are precisely `filterMap` of the declared
mapping, independent of any download failures (so one entry's failure never
prevents the remaining attempts); an entry with an absent identifier is
never attempted; and the reported failures are precisely the present
entries whose download returned an error. -/
theorem download_outputs_partial_tolerance
    (outs : List (String × Option String)) (download : String → RV Unit) :
    ∃ r, download_outputs (.ok outs) download = some r ∧
      r.attempts = outs.filterMap (fun kv => kv.2) ∧
      r.reportedFailures = outs.filterMap (fun kv =>
        match kv.2 with
        | some oid =>
          match download oid with
          | .err _ => some kv.1
          | .ok _ => none
        | none => none) ∧
      r.downloadedMsgs = outs.filterMap (fun kv => kv.2.map fun _ => kv.1) := by
  refine ⟨download_loop download (outs.filter fun kv => kv.2.isSome),
    rfl, ?_⟩
  induction outs with
  | nil => exact ⟨rfl, rfl, rfl⟩
  | cons kv rest ih =>
    obtain ⟨ih1, ih2, ih3⟩ := ih
    obtain ⟨k, v⟩ := kv
    cases v with
    | none => simpa [download_loop] using ⟨ih1, ih2, ih3⟩
    | some oid =>
      cases hd : download oid <;>
        simp [download_loop, hd, ih1, ih2, ih3]

end RealityCapture
